import Mathlib

/-!
Shallow embedding of `src/task1/main.py` (an in-memory contact directory):
validated fields (`Name`, `Phone`, `Birthday`), `Record`, `AddressBook`
with its `get_upcoming_birthdays` query, and the command-handler layer with
its `input_error` decorator.  Python mutation plus exceptions is embedded as
explicit state passing: a mutating operation returns the post-call state
together with an `Option PyErr` (the exception raised, if any); handlers
return the post-call store together with `Except PyErr String`.
-/

deriving instance DecidableEq for Except

namespace Task1

/-- The Python exception classes this program can raise.  The `input_error`
decorator catches exactly `ValueError`, `KeyError` and `IndexError`; the
custom validation errors derive `Exception` directly and are not caught,
and `TypeError` is never caught. -/
inductive PyErr where
  | valueError (msg : String)
  | keyError
  | indexError
  | typeError
  | phoneValidationError
  | nameValidationError
  deriving DecidableEq

/-! ## Calendar arithmetic (Python `datetime` internals) -/

/-- Gregorian leap-year test, as in Python `datetime`. -/
def isLeap (y : Nat) : Bool := decide ((y % 4 = 0 ∧ y % 100 ≠ 0) ∨ y % 400 = 0)

/-- Days in month `m` of year `y` (months are 1-based). -/
def daysInMonth (y m : Nat) : Nat :=
  if m = 2 then (if isLeap y then 29 else 28)
  else if m = 4 ∨ m = 6 ∨ m = 9 ∨ m = 11 then 30
  else 31

/-- Days in year `y` strictly before month `m`. -/
def daysBeforeMonth (y : Nat) : Nat → Nat
  | 0 => 0
  | 1 => 0
  | Nat.succ m => daysBeforeMonth y m + daysInMonth y m

/-- Days strictly before January 1 of year `y` in the proleptic Gregorian
calendar (Python `date.toordinal` counts 01.01.0001 as day 1). -/
def daysBeforeYear (y : Nat) : Nat :=
  365 * (y - 1) + (y - 1) / 4 - (y - 1) / 100 + (y - 1) / 400

/-- A Python `datetime.datetime`: proleptic-Gregorian calendar fields plus a
time of day in microseconds.  Values built by `strptime` carry `tod = 0`;
`datetime.now()` generally does not. -/
structure PyDateTime where
  year : Nat
  month : Nat
  day : Nat
  tod : Nat
  deriving DecidableEq

/-- The date fields form a real calendar date. -/
def PyDateTime.Valid (d : PyDateTime) : Prop :=
  1 ≤ d.year ∧ 1 ≤ d.month ∧ d.month ≤ 12 ∧ 1 ≤ d.day ∧ d.day ≤ daysInMonth d.year d.month

instance (d : PyDateTime) : Decidable d.Valid := by
  unfold PyDateTime.Valid; infer_instance

/-- Python `date.toordinal()`. -/
def PyDateTime.toOrd (d : PyDateTime) : Nat :=
  daysBeforeYear d.year + daysBeforeMonth d.year d.month + d.day

/-- Python `datetime.weekday()`: Monday = 0 .. Sunday = 6; ordinal 1
(01.01.0001) is a Monday. -/
def PyDateTime.weekday (d : PyDateTime) : Nat := (d.toOrd - 1) % 7

/-- Python datetime `<=`: by date ordinal, then time of day. -/
def dtLe (a b : PyDateTime) : Bool :=
  a.toOrd < b.toOrd || (a.toOrd == b.toOrd && decide (a.tod ≤ b.tod))

/-- Python datetime `<`. -/
def dtLt (a b : PyDateTime) : Bool :=
  a.toOrd < b.toOrd || (a.toOrd == b.toOrd && decide (a.tod < b.tod))

/-- The next calendar day (day increment with month/year rollover). -/
def succDay (d : PyDateTime) : PyDateTime :=
  if d.day < daysInMonth d.year d.month then { d with day := d.day + 1 }
  else if d.month < 12 then { d with month := d.month + 1, day := 1 }
  else { d with year := d.year + 1, month := 1, day := 1 }

/-- `d + timedelta(days := k)`; the time of day is preserved.  (Python would
raise OverflowError past year 9999; no date arising in this program's flows
reaches that bound.) -/
def PyDateTime.addDays (d : PyDateTime) : Nat → PyDateTime
  | 0 => d
  | k + 1 => succDay (d.addDays k)

/-- Python `datetime.replace(year := y)`: validates the substituted date and
raises `ValueError` when it is not a real date (e.g. Feb 29 moved to a
non-leap year) or `y` is outside 1..9999. -/
def PyDateTime.replaceYear (d : PyDateTime) (y : Nat) : Except PyErr PyDateTime :=
  if 1 ≤ y ∧ y ≤ 9999 ∧ d.day ≤ daysInMonth y d.month then .ok { d with year := y }
  else .error (.valueError "day is out of range for month")

/-! ## Characters and digit predicates -/

/-- An ASCII digit `0`-`9` (the spec's phrase "ASCII digit"). -/
def isAsciiDigit (c : Char) : Bool := 48 ≤ c.toNat && c.toNat ≤ 57

/-- Python's Unicode decimal-digit test (`str.isdecimal`, `\d` in `re`),
modelled over the blocks exercised in this development: ASCII digits plus
several non-ASCII decimal-digit (Nd) blocks.  CPython also accepts further
Nd blocks that no string in this development contains. -/
def pyCharIsDecimal (c : Char) : Bool :=
  isAsciiDigit c
  || (0x660 ≤ c.toNat && c.toNat ≤ 0x669)
  || (0x6F0 ≤ c.toNat && c.toNat ≤ 0x6F9)
  || (0x966 ≤ c.toNat && c.toNat ≤ 0x96F)
  || (0xFF10 ≤ c.toNat && c.toNat ≤ 0xFF19)

/-- Python `str.isdigit` on one character: decimal digits plus characters of
Unicode numeric type Digit, such as the superscript digits (`'²'`, U+00B2,
is a digit but not an ASCII digit). -/
def pyCharIsDigit (c : Char) : Bool :=
  pyCharIsDecimal c
  || c.toNat = 0xB2 || c.toNat = 0xB3 || c.toNat = 0xB9
  || (0x2070 ≤ c.toNat && c.toNat ≤ 0x2079)
  || (0x2080 ≤ c.toNat && c.toNat ≤ 0x2089)

/-- Python `str.isdigit`: nonempty and every character a digit. -/
def pyStrIsDigit (s : String) : Bool := !s.data.isEmpty && s.data.all pyCharIsDigit

/-- Numeric value of a decimal-digit character (as `int()` reads it). -/
def decimalVal (c : Char) : Nat :=
  if isAsciiDigit c then c.toNat - 48
  else if 0x660 ≤ c.toNat && c.toNat ≤ 0x669 then c.toNat - 0x660
  else if 0x6F0 ≤ c.toNat && c.toNat ≤ 0x6F9 then c.toNat - 0x6F0
  else if 0x966 ≤ c.toNat && c.toNat ≤ 0x96F then c.toNat - 0x966
  else c.toNat - 0xFF10

/-- Value of a digit string read in base 10. -/
def decimalValList (cs : List Char) : Nat := cs.foldl (fun acc c => 10 * acc + decimalVal c) 0

/-- The ASCII character of a digit value. -/
def digitChar (n : Nat) : Char := Char.ofNat (48 + n)

/-- Two-digit zero-padded rendering (strftime `%d`, `%m`). -/
def pad2 (n : Nat) : List Char := [digitChar (n / 10 % 10), digitChar (n % 10)]

/-- strftime `%Y` on this platform (glibc): no zero padding, so a year below
1000 prints as its plain decimal digits and a year in 1000..9999 prints as
exactly four digits (every year this program stores is at most 9999). -/
def yearChars (y : Nat) : List Char :=
  if y < 1000 then Nat.toDigits 10 y
  else [digitChar (y / 1000 % 10), digitChar (y / 100 % 10), digitChar (y / 10 % 10),
        digitChar (y % 10)]

/-- Python `strftime("%d.%m.%Y")`. -/
def PyDateTime.strftimeDMY (d : PyDateTime) : String :=
  String.mk (pad2 d.day ++ ('.' :: pad2 d.month) ++ ('.' :: yearChars d.year))

/-! ## `strptime(value, "%d.%m.%Y")` -/

/-- Split a character list at every `'.'` (the literal separators of the
compiled strptime pattern; no numeric group can contain a dot, so a full
match decomposes along the dots). -/
def splitOnDot : List Char → List (List Char)
  | [] => [[]]
  | c :: cs =>
    if c = '.' then [] :: splitOnDot cs
    else
      match splitOnDot cs with
      | [] => [[c]]
      | g :: gs => (c :: g) :: gs

/-- The `%d` group of CPython's strptime pattern,
`3[0-1]|[1-2]\d|0[1-9]|[1-9]| [1-9]`, with the numeric value `int()`
extracts from the match. -/
def dayField : List Char → Option Nat
  | [c] => if 49 ≤ c.toNat ∧ c.toNat ≤ 57 then some (decimalVal c) else none
  | [c1, c2] =>
    if c1 = '3' ∧ (c2 = '0' ∨ c2 = '1') then some (30 + decimalVal c2)
    else if (c1 = '1' ∨ c1 = '2') ∧ pyCharIsDecimal c2 then
      some (10 * decimalVal c1 + decimalVal c2)
    else if c1 = '0' ∧ 49 ≤ c2.toNat ∧ c2.toNat ≤ 57 then some (decimalVal c2)
    else if c1 = ' ' ∧ 49 ≤ c2.toNat ∧ c2.toNat ≤ 57 then some (decimalVal c2)
    else none
  | _ => none

/-- The `%m` group, `1[0-2]|0[1-9]|[1-9]`. -/
def monthField : List Char → Option Nat
  | [c] => if 49 ≤ c.toNat ∧ c.toNat ≤ 57 then some (decimalVal c) else none
  | [c1, c2] =>
    if c1 = '1' ∧ (c2 = '0' ∨ c2 = '1' ∨ c2 = '2') then some (10 + decimalVal c2)
    else if c1 = '0' ∧ 49 ≤ c2.toNat ∧ c2.toNat ≤ 57 then some (decimalVal c2)
    else none
  | _ => none

/-- The `%Y` group, `\d\d\d\d`: exactly four decimal digits. -/
def yearField (cs : List Char) : Option Nat :=
  if cs.length = 4 ∧ cs.all pyCharIsDecimal then some (decimalValList cs) else none

/-! ## Validated fields -/

/-- `Phone` field: a wrapper around the accepted string. -/
structure Phone where
  value : String
  deriving DecidableEq

/-- `Phone.validate`: `len(value) == 10 and value.isdigit()`. -/
def Phone.validate (value : String) : Bool :=
  value.length == 10 && pyStrIsDigit value

/-- `Phone(value)`: validate, else raise `PhoneValidationError`. -/
def Phone.new (value : String) : Except PyErr Phone :=
  if Phone.validate value then .ok ⟨value⟩ else .error .phoneValidationError

/-- `Name` field. -/
structure Name where
  value : String
  deriving DecidableEq

/-- `Name.validate`: a `str` of length greater than 1. -/
def Name.validate (value : String) : Bool := decide (value.length > 1)

/-- `Name(value)`: validate, else raise `NameValidationError`. -/
def Name.new (value : String) : Except PyErr Name :=
  if Name.validate value then .ok ⟨value⟩ else .error .nameValidationError

/-- `Birthday` field: holds the `datetime` produced by `str_to_datetime`. -/
structure Birthday where
  value : PyDateTime
  deriving DecidableEq

/-- `Birthday.str_to_datetime`: `datetime.strptime(value, "%d.%m.%Y")`, any
failure re-raised as `ValueError("Invalid date format. Use DD.MM.YYYY")`.
The pattern match decomposes along the literal dots; the `datetime`
constructor then checks the day against the month length (the year read
from four digits is at most 9999 but can be 0, which the constructor
rejects). -/
def Birthday.str_to_datetime (value : String) : Except PyErr PyDateTime :=
  match splitOnDot value.data with
  | [ds, ms, ys] =>
    match dayField ds, monthField ms, yearField ys with
    | some d, some m, some y =>
      if 1 ≤ y ∧ d ≤ daysInMonth y m then .ok ⟨y, m, d, 0⟩
      else .error (.valueError "Invalid date format. Use DD.MM.YYYY")
    | _, _, _ => .error (.valueError "Invalid date format. Use DD.MM.YYYY")
  | _ => .error (.valueError "Invalid date format. Use DD.MM.YYYY")

/-- `Birthday(value)`. -/
def Birthday.new (value : String) : Except PyErr Birthday :=
  (Birthday.str_to_datetime value).map Birthday.mk

/-- A Python value that is either a `str` or an already-constructed `Phone`
object (the `add` handler rebinds its `phone` variable to a `Phone` and then
passes that object on to `Record.add_phone`). -/
inductive StrOrPhone where
  | s (v : String)
  | p (v : Phone)
  deriving DecidableEq

/-- `Phone(value)` on a dynamic argument: `Phone.validate` calls
`len(value)`, and `len` of a `Phone` object raises `TypeError`. -/
def Phone.newDyn : StrOrPhone → Except PyErr Phone
  | .s v => Phone.new v
  | .p _ => .error .typeError

/-! ## `Record` -/

/-- A contact record: one name, a phone list, an optional birthday. -/
structure Record where
  name : Name
  phones : List Phone
  birthday : Option Birthday
  deriving DecidableEq

/-- `Record(name)`: validates the name; starts with no phones, no birthday. -/
def Record.new (name : String) : Except PyErr Record :=
  (Name.new name).map fun n => ⟨n, [], none⟩

/-- `Record.add_birthday`: parse and overwrite the birthday slot. -/
def Record.add_birthday (r : Record) (s : String) : Record × Option PyErr :=
  match Birthday.new s with
  | .ok b => ({ r with birthday := some b }, none)
  | .error e => (r, some e)

/-- `Record.add_phone`: validate and append. -/
def Record.add_phone (r : Record) (value : String) : Record × Option PyErr :=
  match Phone.new value with
  | .ok p => ({ r with phones := r.phones ++ [p] }, none)
  | .error e => (r, some e)

/-- The `remove_phone` loop: drop the first phone whose `value` matches. -/
def removeFirstPhone : List Phone → String → Option (List Phone)
  | [], _ => none
  | p :: ps, v => if p.value = v then some ps else (removeFirstPhone ps v).map (p :: ·)

/-- `Record.remove_phone`: remove the first match, else raise `ValueError`. -/
def Record.remove_phone (r : Record) (value : String) : Record × Option PyErr :=
  match removeFirstPhone r.phones value with
  | some ps => ({ r with phones := ps }, none)
  | none => (r, some (.valueError ("Phone number " ++ value ++ " not found.")))

/-- `Record.edit_phone`: validate the new value first; if valid, remove the
old one (raising if absent) then append the new one; else raise
`PhoneValidationError`. -/
def Record.edit_phone (r : Record) (old_value new_value : String) : Record × Option PyErr :=
  if Phone.validate new_value then
    match r.remove_phone old_value with
    | (r1, some e) => (r1, some e)
    | (r1, none) => r1.add_phone new_value
  else (r, some .phoneValidationError)

/-! ## `AddressBook` -/

/-- The `UserDict` data: an insertion-ordered map from name string to record. -/
abbrev AddressBook := List (String × Record)

/-- Python dict assignment `data[key] = v`: update in place when the key is
present (keeping its position), else append a new entry. -/
def dictSet : AddressBook → String → Record → AddressBook
  | [], k, v => [(k, v)]
  | (k0, v0) :: rest, k, v =>
    if k0 = k then (k0, v) :: rest else (k0, v0) :: dictSet rest k v

/-- Python `dict.get`. -/
def dictGet : AddressBook → String → Option Record
  | [], _ => none
  | (k0, v0) :: rest, k => if k0 = k then some v0 else dictGet rest k

/-- Python `del data[key]` on a present key. -/
def dictRemove : AddressBook → String → AddressBook
  | [], _ => []
  | (k0, v0) :: rest, k => if k0 = k then rest else (k0, v0) :: dictRemove rest k

/-- `AddressBook.add_record`: `data[record.name.value] = record`. -/
def AddressBook.add_record (book : AddressBook) (r : Record) : AddressBook :=
  dictSet book r.name.value r

/-- `AddressBook.find`: `data.get(name)`. -/
def AddressBook.find (book : AddressBook) (name : String) : Option Record :=
  dictGet book name

/-- `AddressBook.delete`: remove the entry, else raise `ValueError`. -/
def AddressBook.delete (book : AddressBook) (name : String) : AddressBook × Option PyErr :=
  if (book.find name).isSome then (dictRemove book name, none)
  else (book, some (.valueError ("Record for " ++ name ++ " not found.")))

/-! ## `get_upcoming_birthdays` -/

/-- One output row: contact name and formatted greeting date. -/
structure Entry where
  name : String
  birthday : String
  deriving DecidableEq

/-- Lines 118-120 of the source: a greeting date on Saturday or Sunday
(weekday 5 or 6) is moved forward by `7 - weekday` days. -/
def weekend_roll (g : PyDateTime) : PyDateTime :=
  if 5 ≤ g.weekday then g.addDays (7 - g.weekday) else g

/-- The per-record body of the `get_upcoming_birthdays` loop: project the
birthday onto the current year; take it if inside `[today, today+7]`; else,
if it is already past, re-project onto next year and take that if it is at
most `today+7`; finally weekend-roll and format. -/
def upcomingEntry (today plus7 : PyDateTime) (r : Record) : Except PyErr (Option Entry) :=
  match r.birthday with
  | none => .ok none
  | some b => do
    let bty ← b.value.replaceYear today.year
    let g1 ←
      if dtLe today bty && dtLe bty plus7 then pure (some bty)
      else if dtLt bty today then do
        let bty2 ← bty.replaceYear (today.year + 1)
        pure (if dtLe bty2 plus7 then some bty2 else none)
      else pure none
    pure ((g1.map weekend_roll).map fun gd => ⟨r.name.value, gd.strftimeDMY⟩)

/-- The loop over `self.data.values()`, collecting entries in store order and
propagating the first raised error. -/
def collectUpcoming (today plus7 : PyDateTime) : List Record → Except PyErr (List Entry)
  | [] => .ok []
  | r :: rs => do
    let e ← upcomingEntry today plus7 r
    let rest ← collectUpcoming today plus7 rs
    pure (match e with | some x => x :: rest | none => rest)

/-- `AddressBook.get_upcoming_birthdays`, with `datetime.now()` passed in as
`today`.  Returns the store state after the call (the method performs no
mutation) together with the Python return value: the entry list, or the
sentinel string when the list is empty; errors raised by `replace`
propagate. -/
def AddressBook.get_upcoming_birthdays (book : AddressBook) (today : PyDateTime) :
    AddressBook × Except PyErr (List Entry ⊕ String) :=
  (book, do
    let entries ← collectUpcoming today (today.addDays 7) (book.map (·.2))
    pure (if entries.isEmpty then .inr "There are no upcoming birthdays yet"
          else .inl entries))

/-! ## Command handlers -/

/-- The `@input_error` decorator: catch `ValueError`, `KeyError`,
`IndexError` and return a fixed message for each; anything else (a normal
return, or any other exception class) passes through. -/
def input_error (f : List String → AddressBook → AddressBook × Except PyErr String)
    (args : List String) (book : AddressBook) : AddressBook × Except PyErr String :=
  match f args book with
  | (b, .error (.valueError _)) => (b, .ok "Give me name and phone, please.")
  | (b, .error .keyError) => (b, .ok "This contact does not exist.")
  | (b, .error .indexError) => (b, .ok "Not enough arguments.")
  | (b, r) => (b, r)

/-- The tail of `add_contact` after a record is at key `name`: `if phone:`
then `phone = Phone(phone)` (raising `PhoneValidationError` on a bad
string) and `record.add_phone(phone)` — which re-validates the `Phone`
object itself, so `len()` raises `TypeError`. -/
def add_contact_phone_step (book1 : AddressBook) (name : String) (record : Record)
    (message phone : String) : AddressBook × Except PyErr String :=
  if phone ≠ "" then
    match Phone.newDyn (.s phone) with
    | .error e => (book1, .error e)
    | .ok ph =>
      match Phone.newDyn (.p ph) with
      | .error e => (book1, .error e)
      | .ok p2 => (dictSet book1 name { record with phones := record.phones ++ [p2] },
                   .ok message)
  else (book1, .ok message)

/-- The body of `add_contact` before decoration: unpack `name, phone, *_`
(raising `ValueError` when fewer than two arguments), find or create the
record — inserting it into the book BEFORE any phone validation — then the
phone step. -/
def add_contact_body (args : List String) (book : AddressBook) :
    AddressBook × Except PyErr String :=
  match args with
  | name :: phone :: _ =>
    match book.find name with
    | some record => add_contact_phone_step book name record "Contact updated." phone
    | none =>
      match Record.new name with
      | .error e => (book, .error e)
      | .ok record =>
        add_contact_phone_step (book.add_record record) name record "Contact added." phone
  | _ => (book, .error (.valueError "not enough values to unpack"))

/-- The decorated `add_contact` handler. -/
def add_contact (args : List String) (book : AddressBook) : AddressBook × Except PyErr String :=
  input_error add_contact_body args book

/-- The body of `change_contact` before decoration, line by line:
`args[0]` (IndexError on no arguments); the optional birthday is
`args[-1]` only when there are more than two arguments AND `args[-1]`
passes `str.isdigit` (a dotted date string never does); unpacking
`args[1:]` needs at least two values (`TypeError` when `args[1:]` is
replaced by `None`, `ValueError` when it has one element); then the phone
edit and the birthday write, each propagating its raised error with the
record state written back at key `name`. -/
def change_contact_body (args : List String) (book : AddressBook) :
    AddressBook × Except PyErr String :=
  match args with
  | [] => (book, .error .indexError)
  | name :: restArgs =>
    let new_birthday : Option String :=
      if (name :: restArgs).length > 2 && pyStrIsDigit ((name :: restArgs).getLastD "")
      then some ((name :: restArgs).getLastD "") else none
    match restArgs with
    | [] => (book, .error .typeError)
    | [_] => (book, .error (.valueError "not enough values to unpack"))
    | old_phone :: new_phone :: _ =>
      match book.find name with
      | none => (book, .ok ("Contact " ++ name ++ " not found."))
      | some record =>
        let step1 :=
          if old_phone ≠ "" && new_phone ≠ "" then record.edit_phone old_phone new_phone
          else (record, none)
        match step1 with
        | (r1, some e) => (dictSet book name r1, .error e)
        | (r1, none) =>
          let step2 :=
            match new_birthday with
            | some nb => r1.add_birthday nb
            | none => (r1, none)
          match step2 with
          | (r2, some e) => (dictSet book name r2, .error e)
          | (r2, none) =>
            (dictSet book name r2, .ok ("Contact " ++ name ++ " updated successfully."))

/-- The decorated `change_contact` handler. -/
def change_contact (args : List String) (book : AddressBook) :
    AddressBook × Except PyErr String :=
  input_error change_contact_body args book

/-- The store's unique-key invariant: no two entries share a key. -/
def NodupKeys (book : AddressBook) : Prop := (book.map Prod.fst).Nodup

/-- Modelled from the spec's words "valid calendar-date string s in
DD.MM.YYYY format": exactly ten characters `DD.MM.YYYY` with all eight
digit positions ASCII digits, returning the day, month and year numerals.
This is the claimed strict format, to be compared with what the source's
`Birthday.str_to_datetime` actually accepts. -/
def strictDMY (s : String) : Option (Nat × Nat × Nat) :=
  match s.data with
  | [d1, d2, c1, m1, m2, c2, y1, y2, y3, y4] =>
    if c1 = '.' ∧ c2 = '.' ∧ [d1, d2, m1, m2, y1, y2, y3, y4].all isAsciiDigit then
      some (10 * (d1.toNat - 48) + (d2.toNat - 48),
            10 * (m1.toNat - 48) + (m2.toNat - 48),
            1000 * (y1.toNat - 48) + 100 * (y2.toNat - 48) + 10 * (y3.toNat - 48)
              + (y4.toNat - 48))
    else none
  | _ => none

/-! ## Helper lemmas -/

theorem dictGet_dictSet_self (data : AddressBook) (k : String) (v : Record) :
    dictGet (dictSet data k v) k = some v := by
  induction data with
  | nil => simp [dictSet, dictGet]
  | cons e rest ih =>
    obtain ⟨k0, v0⟩ := e
    by_cases hk : k0 = k
    · simp [dictSet, dictGet, hk]
    · simp [dictSet, dictGet, hk, ih]

theorem mem_keys_dictSet (data : AddressBook) (k : String) (v : Record) (a : String) :
    a ∈ (dictSet data k v).map Prod.fst ↔ a ∈ data.map Prod.fst ∨ a = k := by
  induction data with
  | nil => simp [dictSet]
  | cons e rest ih =>
    obtain ⟨k0, v0⟩ := e
    by_cases hk : k0 = k
    · subst hk
      simp [dictSet]
      tauto
    · simp [dictSet, hk, ih]
      tauto

theorem nodupKeys_dictSet (data : AddressBook) (k : String) (v : Record)
    (h : NodupKeys data) : NodupKeys (dictSet data k v) := by
  induction data with
  | nil => simp [dictSet, NodupKeys]
  | cons e rest ih =>
    obtain ⟨k0, v0⟩ := e
    unfold NodupKeys at h ⊢
    simp only [List.map_cons, List.nodup_cons] at h
    by_cases hk : k0 = k
    · simp only [dictSet, if_pos hk, List.map_cons, List.nodup_cons]
      exact h
    · simp only [dictSet, if_neg hk, List.map_cons, List.nodup_cons]
      refine ⟨?_, ih h.2⟩
      intro hmem
      rcases (mem_keys_dictSet rest k v k0).mp hmem with h1 | h1
      · exact h.1 h1
      · exact hk h1

theorem dictRemove_keys_sublist (data : AddressBook) (k : String) :
    ((dictRemove data k).map Prod.fst).Sublist (data.map Prod.fst) := by
  induction data with
  | nil => simp [dictRemove]
  | cons e rest ih =>
    obtain ⟨k0, v0⟩ := e
    by_cases hk : k0 = k
    · simp only [dictRemove, if_pos hk, List.map_cons]
      exact List.sublist_cons_self k0 _
    · simp only [dictRemove, if_neg hk, List.map_cons]
      exact ih.cons₂ k0

theorem nodupKeys_delete (book : AddressBook) (name : String) (h : NodupKeys book) :
    NodupKeys (book.delete name).1 := by
  unfold AddressBook.delete
  by_cases hf : (book.find name).isSome
  · simp only [if_pos hf]
    exact h.sublist (dictRemove_keys_sublist book name)
  · simp only [if_neg hf]
    exact h

theorem removeFirstPhone_eq_none (ps : List Phone) (v : String)
    (h : ∀ p ∈ ps, p.value ≠ v) : removeFirstPhone ps v = none := by
  induction ps with
  | nil => rfl
  | cons p ps ih =>
    simp only [removeFirstPhone]
    rw [if_neg (h p (by simp))]
    rw [ih (fun q hq => h q (by simp [hq]))]
    rfl

/-! ## Claim theorems -/

/-- Claim C10: `get_upcoming_birthdays` is side-effect free on the store:
the store state after the call equals the store state before it, for every
store and every current datetime. -/
theorem get_upcoming_birthdays_frame (book : AddressBook) (today : PyDateTime) :
    (book.get_upcoming_birthdays today).1 = book := rfl

/-- Claim C1 (code bug): a stored birthday whose projection onto the current
year is exactly today's calendar date is NOT reported unless `now()` is
exactly midnight.  With today = 17.06.2024 12:00 and Ann's birthday
17.06.2000, the projection is the datetime 17.06.2024 00:00 — today's very
date — yet the query returns the no-birthdays sentinel, because the
midnight candidate compares strictly below `datetime.now()`; at exactly
midnight the same record is reported. -/
theorem get_upcoming_excludes_today_birthday :
    ((PyDateTime.mk 2000 6 17 0).replaceYear 2024 = .ok ⟨2024, 6, 17, 0⟩) ∧
    (AddressBook.get_upcoming_birthdays [("Ann", ⟨⟨"Ann"⟩, [], some ⟨⟨2000, 6, 17, 0⟩⟩⟩)]
        ⟨2024, 6, 17, 43200000000⟩).2 = .ok (.inr "There are no upcoming birthdays yet") ∧
    (AddressBook.get_upcoming_birthdays [("Ann", ⟨⟨"Ann"⟩, [], some ⟨⟨2000, 6, 17, 0⟩⟩⟩)]
        ⟨2024, 6, 17, 0⟩).2 = .ok (.inl [⟨"Ann", "17.06.2024"⟩]) := by decide

/-- Claim C5 (code bug): `change` with a fourth argument that is a valid
`DD.MM.YYYY` date edits the phone but silently ignores the birthday: the
guard `args[-1].isdigit()` is false for every dotted date string, so
`new_birthday` stays `None` while the handler still reports success. -/
theorem change_contact_ignores_valid_birthday :
    Birthday.str_to_datetime "01.01.2024" = .ok ⟨2024, 1, 1, 0⟩ ∧
    pyStrIsDigit "01.01.2024" = false ∧
    change_contact ["Ann", "1234567890", "0987654321", "01.01.2024"]
        [("Ann", ⟨⟨"Ann"⟩, [⟨"1234567890"⟩], none⟩)]
      = ([("Ann", ⟨⟨"Ann"⟩, [⟨"0987654321"⟩], none⟩)],
         .ok "Contact Ann updated successfully.") := by decide

/-- Claim C2's counterexample: `add(["Bob","12345"])` on the empty store
raises `PhoneValidationError`, and Bob IS present in the store afterward
(with an empty phone list) — the record is inserted before the phone is
validated, refuting "the store is unchanged on error". -/
theorem add_contact_bob_present_counterexample :
    add_contact ["Bob", "12345"] ([] : AddressBook)
      = ([("Bob", ⟨⟨"Bob"⟩, [], none⟩)], .error .phoneValidationError) ∧
    AddressBook.find [("Bob", ⟨⟨"Bob"⟩, [], none⟩)] "Bob" = some ⟨⟨"Bob"⟩, [], none⟩ := by
  decide

/-- Claim C2 (amended): on any store not containing "Bob", the invocation
`add(["Bob","12345"])` fails with an uncaught `PhoneValidationError`, but
"Bob" IS present in the store afterward, with an empty phone list: the
record is inserted before phone validation. -/
theorem add_contact_invalid_phone_inserts_record (book : AddressBook)
    (h : book.find "Bob" = none) :
    add_contact ["Bob", "12345"] book
      = (book.add_record ⟨⟨"Bob"⟩, [], none⟩, .error .phoneValidationError) ∧
    (add_contact ["Bob", "12345"] book).1.find "Bob" = some ⟨⟨"Bob"⟩, [], none⟩ := by
  have hrec : Record.new "Bob" = .ok ⟨⟨"Bob"⟩, [], none⟩ := by decide
  have hph : Phone.newDyn (.s "12345") = .error .phoneValidationError := by decide
  have h1 : add_contact_body ["Bob", "12345"] book
      = (book.add_record ⟨⟨"Bob"⟩, [], none⟩, .error .phoneValidationError) := by
    simp only [add_contact_body, h, hrec, add_contact_phone_step, hph,
      if_pos (show ("12345" : String) ≠ "" by decide)]
  have h2 : add_contact ["Bob", "12345"] book
      = (book.add_record ⟨⟨"Bob"⟩, [], none⟩, .error .phoneValidationError) := by
    unfold add_contact input_error
    rw [h1]
  refine ⟨h2, ?_⟩
  rw [h2]
  show (book.add_record ⟨⟨"Bob"⟩, [], none⟩).find "Bob" = _
  unfold AddressBook.add_record AddressBook.find
  exact dictGet_dictSet_self book _ _

/-- Claim C2's witness: the amended statement at the empty store. -/
theorem add_contact_invalid_phone_inserts_record_witness :
    add_contact ["Bob", "12345"] ([] : AddressBook)
      = (AddressBook.add_record [] ⟨⟨"Bob"⟩, [], none⟩, .error .phoneValidationError) :=
  (add_contact_invalid_phone_inserts_record [] (by decide)).1

/-- Claim C3's counterexample: `add` with a perfectly valid phone raises an
uncaught `TypeError` out of the decorated handler (the handler re-wraps the
`Phone` object, and `len()` of a `Phone` raises `TypeError`, which
`input_error` does not catch) — refuting "a command invocation never
propagates a raised error out of the handler layer". -/
theorem add_contact_typeerror_escapes :
    (add_contact ["Bob", "1234567890"] ([] : AddressBook)).2 = .error .typeError := by decide

/-- Claim C3 (amended): the `input_error` adapter preserves the store state,
converts exactly the three classes `ValueError`, `KeyError`, `IndexError`
into their fixed user-facing strings, passes normal results through, and
lets every other exception class (`PhoneValidationError`,
`NameValidationError`, `TypeError`) propagate out of the handler layer. -/
theorem input_error_spec (f : List String → AddressBook → AddressBook × Except PyErr String)
    (args : List String) (book : AddressBook) :
    (input_error f args book).1 = (f args book).1 ∧
    (∀ msg, (f args book).2 = .error (.valueError msg) →
      (input_error f args book).2 = .ok "Give me name and phone, please.") ∧
    ((f args book).2 = .error .keyError →
      (input_error f args book).2 = .ok "This contact does not exist.") ∧
    ((f args book).2 = .error .indexError →
      (input_error f args book).2 = .ok "Not enough arguments.") ∧
    (∀ s, (f args book).2 = .ok s → (input_error f args book).2 = .ok s) ∧
    ((f args book).2 = .error .phoneValidationError →
      (input_error f args book).2 = .error .phoneValidationError) ∧
    ((f args book).2 = .error .nameValidationError →
      (input_error f args book).2 = .error .nameValidationError) ∧
    ((f args book).2 = .error .typeError →
      (input_error f args book).2 = .error .typeError) := by
  unfold input_error
  rcases hf : f args book with ⟨b, r⟩
  rcases r with e | s
  · rcases e <;> simp
  · simp

/-- Claim C3's witness: calling `add` with no arguments raises the
unpacking `ValueError`, which the adapter converts to the fixed string. -/
theorem input_error_spec_witness :
    (input_error add_contact_body [] ([] : AddressBook)).2
      = .ok "Give me name and phone, please." :=
  (input_error_spec add_contact_body [] []).2.1 "not enough values to unpack" (by decide)

/-- Claim C6's counterexample: the ten-character string `123456789²` passes
`Phone.validate` and constructs a `Phone` (Python `str.isdigit` accepts the
superscript two), yet its last character is not an ASCII digit — refuting
"true if and only if every character is an ASCII digit" and "for every s
failing this, construction fails". -/
theorem phone_validate_superscript_counterexample :
    Phone.validate "123456789²" = true ∧
    Phone.new "123456789²" = .ok ⟨"123456789²"⟩ ∧
    "123456789²".length = 10 ∧
    "123456789²".data.all isAsciiDigit = false := by decide

/-- Claim C6 (amended): a string of exactly ten ASCII digits always passes
validation and construction (the spec's condition is sufficient but not
necessary, since `str.isdigit` also accepts non-ASCII digit characters),
and construction fails with `PhoneValidationError` exactly when
`Phone.validate` is false. -/
theorem phone_validate_spec (s : String) :
    ((s.length = 10 ∧ s.data.all isAsciiDigit = true) →
      Phone.validate s = true ∧ Phone.new s = .ok ⟨s⟩) ∧
    (Phone.validate s = false → Phone.new s = .error .phoneValidationError) := by
  constructor
  · rintro ⟨hlen, hdig⟩
    have hval : Phone.validate s = true := by
      unfold Phone.validate pyStrIsDigit
      have hlen10 : s.data.length = 10 := hlen
      have hne : s.data.isEmpty = false := by
        cases hd : s.data with
        | nil => rw [hd] at hlen10; simp at hlen10
        | cons a l => simp [hd]
      have hall : s.data.all pyCharIsDigit = true := by
        rw [List.all_eq_true] at hdig ⊢
        intro c hc
        unfold pyCharIsDigit pyCharIsDecimal
        rw [hdig c hc]
        simp
      rw [hlen]
      simp [hne, hall]
    exact ⟨hval, by simp [Phone.new, hval]⟩
  · intro h
    simp [Phone.new, h]

/-- Claim C6's witness: the amended statement applied at a ten-ASCII-digit
string and at a short string. -/
theorem phone_validate_spec_witness :
    (Phone.validate "0123456789" = true ∧ Phone.new "0123456789" = .ok ⟨"0123456789"⟩) ∧
    Phone.new "12345" = .error .phoneValidationError :=
  ⟨(phone_validate_spec "0123456789").1 (by decide),
   (phone_validate_spec "12345").2 (by decide)⟩

/-- Claim C8: `edit_phone` is atomic with respect to failure: when the new
value fails phone validation the call raises `PhoneValidationError` and the
record is exactly what it was; when the new value is valid but the old one
is absent from the phone list, the call raises the phone-not-found
`ValueError` and the record is exactly what it was. -/
theorem edit_phone_atomic (r : Record) (old_value new_value : String) :
    (Phone.validate new_value = false →
      r.edit_phone old_value new_value = (r, some .phoneValidationError)) ∧
    (Phone.validate new_value = true → (∀ p ∈ r.phones, p.value ≠ old_value) →
      r.edit_phone old_value new_value
        = (r, some (.valueError ("Phone number " ++ old_value ++ " not found.")))) := by
  constructor
  · intro h
    simp [Record.edit_phone, h]
  · intro hv hmem
    have hrm : r.remove_phone old_value
        = (r, some (.valueError ("Phone number " ++ old_value ++ " not found."))) := by
      unfold Record.remove_phone
      rw [removeFirstPhone_eq_none _ _ hmem]
    simp [Record.edit_phone, hv, hrm]

/-- Claim C8's witness: an invalid new value, and a valid new value with an
absent old value, each leave Bob's record untouched. -/
theorem edit_phone_atomic_witness :
    Record.edit_phone ⟨⟨"Bob"⟩, [⟨"1234567890"⟩], none⟩ "1234567890" "123"
      = (⟨⟨"Bob"⟩, [⟨"1234567890"⟩], none⟩, some .phoneValidationError) ∧
    Record.edit_phone ⟨⟨"Bob"⟩, [⟨"1234567890"⟩], none⟩ "1111111111" "0987654321"
      = (⟨⟨"Bob"⟩, [⟨"1234567890"⟩], none⟩,
         some (.valueError ("Phone number " ++ "1111111111" ++ " not found."))) :=
  ⟨(edit_phone_atomic _ _ _).1 (by decide),
   (edit_phone_atomic _ _ _).2 (by decide) (by decide)⟩

/-- Claim C9: on a store satisfying the unique-key invariant, adding a
record makes its name look up exactly that record; the invariant is
preserved; re-adding under the same name replaces the previous record
(last-write-wins); and deletion preserves the invariant. -/
theorem addressbook_unique_key (book : AddressBook) (r : Record) (h : NodupKeys book) :
    (book.add_record r).find r.name.value = some r ∧
    NodupKeys (book.add_record r) ∧
    (∀ r2 : Record, r2.name.value = r.name.value →
      ((book.add_record r).add_record r2).find r.name.value = some r2) ∧
    (∀ name, NodupKeys (book.delete name).1) := by
  refine ⟨dictGet_dictSet_self book _ r, nodupKeys_dictSet book _ r h, ?_,
    fun name => nodupKeys_delete book name h⟩
  intro r2 hname
  unfold AddressBook.add_record AddressBook.find
  rw [hname]
  exact dictGet_dictSet_self _ _ _

/-! ## Calendar lemmas for the weekend roll -/

theorem daysInMonth_pos (y m : Nat) : 1 ≤ daysInMonth y m := by
  unfold daysInMonth
  split
  · split <;> omega
  · split <;> omega

theorem daysInMonth_le (y m : Nat) : daysInMonth y m ≤ 31 := by
  unfold daysInMonth
  split
  · split <;> omega
  · split <;> omega

theorem daysBeforeMonth_succ (y m : Nat) (h : 1 ≤ m) :
    daysBeforeMonth y (m + 1) = daysBeforeMonth y m + daysInMonth y m := by
  match m, h with
  | m + 1, _ => rfl

theorem daysBeforeMonth_12 (y : Nat) :
    daysBeforeMonth y 12 + 31 = if isLeap y then 366 else 365 := by
  by_cases h : isLeap y = true <;>
    simp [daysBeforeMonth, daysInMonth, h]

theorem daysBeforeYear_succ (y : Nat) (hy : 1 ≤ y) :
    daysBeforeYear (y + 1) = daysBeforeYear y + (if isLeap y then 366 else 365) := by
  obtain ⟨n, rfl⟩ : ∃ n, y = n + 1 := ⟨y - 1, by omega⟩
  unfold daysBeforeYear isLeap
  simp only [Nat.add_sub_cancel, decide_eq_true_eq]
  rw [Nat.succ_div n 4, Nat.succ_div n 100, Nat.succ_div n 400]
  simp only [Nat.dvd_iff_mod_eq_zero]
  by_cases h4 : (n + 1) % 4 = 0 <;> by_cases h100 : (n + 1) % 100 = 0 <;>
    by_cases h400 : (n + 1) % 400 = 0 <;>
    simp [h4, h100, h400] <;> omega

theorem daysBeforeYear_succ_alt (y : Nat) (hy : 1 ≤ y) :
    daysBeforeYear (y + 1) = daysBeforeYear y + daysBeforeMonth y 12 + 31 := by
  rw [daysBeforeYear_succ y hy, ← daysBeforeMonth_12 y]
  omega

theorem succDay_spec (d : PyDateTime) (hv : d.Valid) :
    (succDay d).toOrd = d.toOrd + 1 ∧ (succDay d).Valid := by
  obtain ⟨hy, hm1, hm2, hd1, hd2⟩ := hv
  unfold succDay
  by_cases h1 : d.day < daysInMonth d.year d.month
  · rw [if_pos h1]
    constructor
    · unfold PyDateTime.toOrd
      dsimp only
      omega
    · unfold PyDateTime.Valid
      dsimp only
      omega
  · rw [if_neg h1]
    have hde : d.day = daysInMonth d.year d.month := by omega
    by_cases h2 : d.month < 12
    · rw [if_pos h2]
      constructor
      · unfold PyDateTime.toOrd
        dsimp only
        rw [daysBeforeMonth_succ d.year d.month hm1]
        omega
      · unfold PyDateTime.Valid
        dsimp only
        have := daysInMonth_pos d.year (d.month + 1)
        omega
    · rw [if_neg h2]
      have hm12 : d.month = 12 := by omega
      have hd31 : daysInMonth d.year 12 = 31 := by
        unfold daysInMonth
        norm_num
      constructor
      · unfold PyDateTime.toOrd
        dsimp only
        rw [daysBeforeYear_succ_alt d.year hy]
        rw [hm12] at hde ⊢
        rw [hd31] at hde
        have hb1 : daysBeforeMonth (d.year + 1) 1 = 0 := rfl
        rw [hb1]
        omega
      · unfold PyDateTime.Valid
        dsimp only
        have := daysInMonth_pos (d.year + 1) 1
        omega

theorem toOrd_pos (d : PyDateTime) (hv : d.Valid) : 1 ≤ d.toOrd := by
  obtain ⟨_, _, _, hd1, _⟩ := hv
  unfold PyDateTime.toOrd
  omega

theorem addDays_spec (d : PyDateTime) (hv : d.Valid) (k : Nat) :
    (d.addDays k).toOrd = d.toOrd + k ∧ (d.addDays k).Valid := by
  induction k with
  | zero => exact ⟨rfl, hv⟩
  | succ k ih =>
    obtain ⟨h1, h2⟩ := ih
    obtain ⟨h3, h4⟩ := succDay_spec _ h2
    refine ⟨?_, h4⟩
    show (succDay (d.addDays k)).toOrd = _
    rw [h3, h1]
    omega

theorem weekday_addDays (d : PyDateTime) (hv : d.Valid) (k : Nat) :
    (d.addDays k).weekday = (d.weekday + k) % 7 := by
  obtain ⟨h1, _⟩ := addDays_spec d hv k
  have hp := toOrd_pos d hv
  unfold PyDateTime.weekday
  rw [h1]
  omega

/-- Claim C4: a greeting date with Monday-start weekday 5 (Saturday) or 6
(Sunday) is moved forward by exactly `7 - weekday` days (one or two days),
and in both cases the result is a Monday — the immediately following one;
a greeting date with weekday 0..4 (Monday through Friday) is unchanged. -/
theorem weekend_roll_monday (g : PyDateTime) (hv : g.Valid) :
    (5 ≤ g.weekday →
      weekend_roll g = g.addDays (7 - g.weekday) ∧
      (weekend_roll g).weekday = 0 ∧
      (weekend_roll g).toOrd = g.toOrd + (7 - g.weekday) ∧
      1 ≤ 7 - g.weekday ∧ 7 - g.weekday ≤ 2) ∧
    (g.weekday < 5 → weekend_roll g = g) := by
  have hwd : g.weekday < 7 := by
    unfold PyDateTime.weekday
    omega
  constructor
  · intro h5
    have heq : weekend_roll g = g.addDays (7 - g.weekday) := by
      unfold weekend_roll
      rw [if_pos h5]
    refine ⟨heq, ?_, ?_, by omega, by omega⟩
    · rw [heq, weekday_addDays g hv (7 - g.weekday)]
      omega
    · rw [heq, (addDays_spec g hv (7 - g.weekday)).1]
  · intro h5
    unfold weekend_roll
    rw [if_neg (by omega)]

/-- Claim C4's witness: Saturday 15.06.2024 rolls forward to the Monday two
days later; Friday 14.06.2024 is left unchanged. -/
theorem weekend_roll_monday_witness :
    (PyDateTime.mk 2024 6 15 0).Valid ∧ 5 ≤ (PyDateTime.mk 2024 6 15 0).weekday ∧
    weekend_roll ⟨2024, 6, 15, 0⟩
      = (PyDateTime.mk 2024 6 15 0).addDays (7 - (PyDateTime.mk 2024 6 15 0).weekday) ∧
    (weekend_roll ⟨2024, 6, 15, 0⟩).weekday = 0 ∧
    weekend_roll ⟨2024, 6, 14, 0⟩ = ⟨2024, 6, 14, 0⟩ := by
  have hv : (PyDateTime.mk 2024 6 15 0).Valid := by decide
  have hv2 : (PyDateTime.mk 2024 6 14 0).Valid := by decide
  have h5 : 5 ≤ (PyDateTime.mk 2024 6 15 0).weekday := by decide
  obtain ⟨ha, _⟩ := weekend_roll_monday ⟨2024, 6, 15, 0⟩ hv
  obtain ⟨heq, hmon, _, _, _⟩ := ha h5
  obtain ⟨_, hb⟩ := weekend_roll_monday ⟨2024, 6, 14, 0⟩ hv2
  exact ⟨hv, h5, heq, hmon, hb (by decide)⟩

/-- Claim C9's witness: the statement at the empty store and Bob's record. -/
theorem addressbook_unique_key_witness :
    (AddressBook.add_record [] ⟨⟨"Bob"⟩, [], none⟩).find "Bob" = some ⟨⟨"Bob"⟩, [], none⟩ ∧
    NodupKeys (AddressBook.add_record [] ⟨⟨"Bob"⟩, [], none⟩) := by
  have h := addressbook_unique_key [] ⟨⟨"Bob"⟩, [], none⟩ (by unfold NodupKeys; exact List.nodup_nil)
  exact ⟨h.1, h.2.1⟩

/-! ## Character and parsing lemmas for the birthday round trip -/

theorem isAsciiDigit_bounds (c : Char) (h : isAsciiDigit c = true) :
    48 ≤ c.toNat ∧ c.toNat ≤ 57 := by
  unfold isAsciiDigit at h
  simp only [Bool.and_eq_true, decide_eq_true_eq] at h
  exact h

theorem isAsciiDigit_ne_dot (c : Char) (h : isAsciiDigit c = true) : ¬ c = '.' := by
  intro he
  rw [he] at h
  exact absurd h (by decide)

theorem char_toNat_inj (a : Char) (n : Nat) (h : a.toNat = n) : a = Char.ofNat n := by
  rw [← h, Char.ofNat_toNat]

theorem digitChar_eq (c : Char) (h : isAsciiDigit c = true) :
    digitChar (c.toNat - 48) = c := by
  obtain ⟨h1, _⟩ := isAsciiDigit_bounds c h
  unfold digitChar
  rw [show 48 + (c.toNat - 48) = c.toNat by omega]
  exact Char.ofNat_toNat c

theorem decimalVal_ascii (c : Char) (h : isAsciiDigit c = true) :
    decimalVal c = c.toNat - 48 := by
  unfold decimalVal
  rw [if_pos h]

theorem pyCharIsDecimal_ascii (c : Char) (h : isAsciiDigit c = true) :
    pyCharIsDecimal c = true := by
  unfold pyCharIsDecimal
  rw [h]
  rfl

theorem dayField_two_digits (a b : Char) (ha : isAsciiDigit a = true)
    (hb : isAsciiDigit b = true)
    (hlo : 1 ≤ 10 * (a.toNat - 48) + (b.toNat - 48))
    (hhi : 10 * (a.toNat - 48) + (b.toNat - 48) ≤ 31) :
    dayField [a, b] = some (10 * (a.toNat - 48) + (b.toNat - 48)) := by
  obtain ⟨ha1, ha2⟩ := isAsciiDigit_bounds a ha
  obtain ⟨hb1, hb2⟩ := isAsciiDigit_bounds b hb
  simp only [dayField]
  have hcases : a.toNat = 48 ∨ a.toNat = 49 ∨ a.toNat = 50 ∨ a.toNat = 51 := by omega
  rcases hcases with h | h | h | h
  · have ha0 : a = '0' := by rw [char_toNat_inj a 48 h]
    rw [if_neg (fun hc => by rw [ha0] at hc; exact absurd hc.1 (by decide))]
    rw [if_neg (fun hc => by rw [ha0] at hc; rcases hc.1 with h0 | h0 <;> exact absurd h0 (by decide))]
    rw [if_pos ⟨ha0, by omega, by omega⟩]
    rw [decimalVal_ascii b hb]
    simp only [Option.some.injEq]
    omega
  · have ha0 : a = '1' := by rw [char_toNat_inj a 49 h]
    rw [if_neg (fun hc => by rw [ha0] at hc; exact absurd hc.1 (by decide))]
    rw [if_pos ⟨Or.inl ha0, pyCharIsDecimal_ascii b hb⟩]
    rw [decimalVal_ascii a ha, decimalVal_ascii b hb]
  · have ha0 : a = '2' := by rw [char_toNat_inj a 50 h]
    rw [if_neg (fun hc => by rw [ha0] at hc; exact absurd hc.1 (by decide))]
    rw [if_pos ⟨Or.inr ha0, pyCharIsDecimal_ascii b hb⟩]
    rw [decimalVal_ascii a ha, decimalVal_ascii b hb]
  · have ha0 : a = '3' := by rw [char_toNat_inj a 51 h]
    have hbor : b = '0' ∨ b = '1' := by
      have hb0 : b.toNat = 48 ∨ b.toNat = 49 := by omega
      rcases hb0 with h0 | h0
      · exact Or.inl (by rw [char_toNat_inj b 48 h0])
      · exact Or.inr (by rw [char_toNat_inj b 49 h0])
    rw [if_pos ⟨ha0, hbor⟩]
    rw [decimalVal_ascii b hb]
    simp only [Option.some.injEq]
    omega

theorem monthField_two_digits (a b : Char) (ha : isAsciiDigit a = true)
    (hb : isAsciiDigit b = true)
    (hlo : 1 ≤ 10 * (a.toNat - 48) + (b.toNat - 48))
    (hhi : 10 * (a.toNat - 48) + (b.toNat - 48) ≤ 12) :
    monthField [a, b] = some (10 * (a.toNat - 48) + (b.toNat - 48)) := by
  obtain ⟨ha1, ha2⟩ := isAsciiDigit_bounds a ha
  obtain ⟨hb1, hb2⟩ := isAsciiDigit_bounds b hb
  simp only [monthField]
  have hcases : a.toNat = 48 ∨ a.toNat = 49 := by omega
  rcases hcases with h | h
  · have ha0 : a = '0' := by rw [char_toNat_inj a 48 h]
    rw [if_neg (fun hc => by rw [ha0] at hc; exact absurd hc.1 (by decide))]
    rw [if_pos ⟨ha0, by omega, by omega⟩]
    rw [decimalVal_ascii b hb]
    simp only [Option.some.injEq]
    omega
  · have ha0 : a = '1' := by rw [char_toNat_inj a 49 h]
    have hbor : b = '0' ∨ b = '1' ∨ b = '2' := by
      have hb0 : b.toNat = 48 ∨ b.toNat = 49 ∨ b.toNat = 50 := by omega
      rcases hb0 with h0 | h0 | h0
      · exact Or.inl (by rw [char_toNat_inj b 48 h0])
      · exact Or.inr (Or.inl (by rw [char_toNat_inj b 49 h0]))
      · exact Or.inr (Or.inr (by rw [char_toNat_inj b 50 h0]))
    rw [if_pos ⟨ha0, hbor⟩]
    rw [decimalVal_ascii b hb]
    simp only [Option.some.injEq]
    omega

theorem yearField_digits (a b c d : Char) (ha : isAsciiDigit a = true)
    (hb : isAsciiDigit b = true) (hc : isAsciiDigit c = true) (hd : isAsciiDigit d = true) :
    yearField [a, b, c, d]
      = some (1000 * (a.toNat - 48) + 100 * (b.toNat - 48) + 10 * (c.toNat - 48)
          + (d.toNat - 48)) := by
  have hall : ([a, b, c, d].all pyCharIsDecimal) = true := by
    simp [List.all_cons, pyCharIsDecimal_ascii a ha, pyCharIsDecimal_ascii b hb,
      pyCharIsDecimal_ascii c hc, pyCharIsDecimal_ascii d hd]
  simp only [yearField]
  rw [if_pos ⟨rfl, hall⟩]
  unfold decimalValList
  simp only [List.foldl_cons, List.foldl_nil]
  rw [decimalVal_ascii a ha, decimalVal_ascii b hb, decimalVal_ascii c hc, decimalVal_ascii d hd]
  simp only [Option.some.injEq]
  omega

theorem pad2_digits (a b : Char) (ha : isAsciiDigit a = true) (hb : isAsciiDigit b = true) :
    pad2 (10 * (a.toNat - 48) + (b.toNat - 48)) = [a, b] := by
  obtain ⟨ha1, ha2⟩ := isAsciiDigit_bounds a ha
  obtain ⟨hb1, hb2⟩ := isAsciiDigit_bounds b hb
  unfold pad2
  rw [show (10 * (a.toNat - 48) + (b.toNat - 48)) / 10 % 10 = a.toNat - 48 by omega,
      show (10 * (a.toNat - 48) + (b.toNat - 48)) % 10 = b.toNat - 48 by omega,
      digitChar_eq a ha, digitChar_eq b hb]

theorem yearChars_digits (a b c d : Char) (ha : isAsciiDigit a = true)
    (hb : isAsciiDigit b = true) (hc : isAsciiDigit c = true) (hd : isAsciiDigit d = true)
    (h1000 : 1000 ≤ 1000 * (a.toNat - 48) + 100 * (b.toNat - 48) + 10 * (c.toNat - 48)
      + (d.toNat - 48)) :
    yearChars (1000 * (a.toNat - 48) + 100 * (b.toNat - 48) + 10 * (c.toNat - 48)
      + (d.toNat - 48)) = [a, b, c, d] := by
  obtain ⟨ha1, ha2⟩ := isAsciiDigit_bounds a ha
  obtain ⟨hb1, hb2⟩ := isAsciiDigit_bounds b hb
  obtain ⟨hc1, hc2⟩ := isAsciiDigit_bounds c hc
  obtain ⟨hd1, hd2⟩ := isAsciiDigit_bounds d hd
  unfold yearChars
  rw [if_neg (by omega)]
  rw [show (1000 * (a.toNat - 48) + 100 * (b.toNat - 48) + 10 * (c.toNat - 48)
        + (d.toNat - 48)) / 1000 % 10 = a.toNat - 48 by omega,
      show (1000 * (a.toNat - 48) + 100 * (b.toNat - 48) + 10 * (c.toNat - 48)
        + (d.toNat - 48)) / 100 % 10 = b.toNat - 48 by omega,
      show (1000 * (a.toNat - 48) + 100 * (b.toNat - 48) + 10 * (c.toNat - 48)
        + (d.toNat - 48)) / 10 % 10 = c.toNat - 48 by omega,
      show (1000 * (a.toNat - 48) + 100 * (b.toNat - 48) + 10 * (c.toNat - 48)
        + (d.toNat - 48)) % 10 = d.toNat - 48 by omega,
      digitChar_eq a ha, digitChar_eq b hb, digitChar_eq c hc, digitChar_eq d hd]

theorem splitOnDot_strict (d1 d2 m1 m2 y1 y2 y3 y4 : Char)
    (h1 : ¬ d1 = '.') (h2 : ¬ d2 = '.') (h3 : ¬ m1 = '.') (h4 : ¬ m2 = '.')
    (h5 : ¬ y1 = '.') (h6 : ¬ y2 = '.') (h7 : ¬ y3 = '.') (h8 : ¬ y4 = '.') :
    splitOnDot [d1, d2, '.', m1, m2, '.', y1, y2, y3, y4]
      = [[d1, d2], [m1, m2], [y1, y2, y3, y4]] := by
  simp [splitOnDot, h1, h2, h3, h4, h5, h6, h7, h8]

theorem strictDMY_inv (s : String) (d m y : Nat) (hs : strictDMY s = some (d, m, y)) :
    ∃ d1 d2 m1 m2 y1 y2 y3 y4 : Char,
      s.data = [d1, d2, '.', m1, m2, '.', y1, y2, y3, y4] ∧
      isAsciiDigit d1 = true ∧ isAsciiDigit d2 = true ∧
      isAsciiDigit m1 = true ∧ isAsciiDigit m2 = true ∧
      isAsciiDigit y1 = true ∧ isAsciiDigit y2 = true ∧
      isAsciiDigit y3 = true ∧ isAsciiDigit y4 = true ∧
      d = 10 * (d1.toNat - 48) + (d2.toNat - 48) ∧
      m = 10 * (m1.toNat - 48) + (m2.toNat - 48) ∧
      y = 1000 * (y1.toNat - 48) + 100 * (y2.toNat - 48) + 10 * (y3.toNat - 48)
        + (y4.toNat - 48) := by
  obtain ⟨data⟩ := s
  unfold strictDMY at hs
  rcases data with _ | ⟨d1, data⟩
  · simp at hs
  rcases data with _ | ⟨d2, data⟩
  · simp at hs
  rcases data with _ | ⟨p1, data⟩
  · simp at hs
  rcases data with _ | ⟨m1, data⟩
  · simp at hs
  rcases data with _ | ⟨m2, data⟩
  · simp at hs
  rcases data with _ | ⟨p2, data⟩
  · simp at hs
  rcases data with _ | ⟨y1, data⟩
  · simp at hs
  rcases data with _ | ⟨y2, data⟩
  · simp at hs
  rcases data with _ | ⟨y3, data⟩
  · simp at hs
  rcases data with _ | ⟨y4, data⟩
  · simp at hs
  rcases data with _ | ⟨x, data⟩
  case cons.cons.cons.cons.cons.cons.cons.cons.cons.cons.cons => simp at hs
  have hs2 : (if p1 = '.' ∧ p2 = '.' ∧ [d1, d2, m1, m2, y1, y2, y3, y4].all isAsciiDigit = true
      then some (10 * (d1.toNat - 48) + (d2.toNat - 48),
                 10 * (m1.toNat - 48) + (m2.toNat - 48),
                 1000 * (y1.toNat - 48) + 100 * (y2.toNat - 48) + 10 * (y3.toNat - 48)
                   + (y4.toNat - 48))
      else none) = some (d, m, y) := hs
  by_cases hcond : (p1 = '.' ∧ p2 = '.' ∧ ([d1, d2, m1, m2, y1, y2, y3, y4].all isAsciiDigit) = true)
  · obtain ⟨hp1, hp2, hall⟩ := hcond
    subst hp1; subst hp2
    rw [if_pos ⟨rfl, rfl, hall⟩] at hs2
    simp only [Option.some.injEq, Prod.mk.injEq] at hs2
    obtain ⟨hd, hm, hy⟩ := hs2
    simp only [List.all_cons, List.all_nil, Bool.and_eq_true] at hall
    obtain ⟨g1, g2, g3, g4, g5, g6, g7, g8, _⟩ := hall
    exact ⟨d1, d2, m1, m2, y1, y2, y3, y4, rfl, g1, g2, g3, g4, g5, g6, g7, g8,
      hd.symm, hm.symm, hy.symm⟩
  · rw [if_neg hcond] at hs2
    simp at hs2

theorem str_to_datetime_eval (s : String) (d1 d2 m1 m2 y1 y2 y3 y4 : Char) (d m y : Nat)
    (heq : s.data = [d1, d2, '.', m1, m2, '.', y1, y2, y3, y4])
    (hd : dayField [d1, d2] = some d) (hm : monthField [m1, m2] = some m)
    (hy : yearField [y1, y2, y3, y4] = some y)
    (h1 : ¬ d1 = '.') (h2 : ¬ d2 = '.') (h3 : ¬ m1 = '.') (h4 : ¬ m2 = '.')
    (h5 : ¬ y1 = '.') (h6 : ¬ y2 = '.') (h7 : ¬ y3 = '.') (h8 : ¬ y4 = '.')
    (hok : 1 ≤ y ∧ d ≤ daysInMonth y m) :
    Birthday.str_to_datetime s = .ok ⟨y, m, d, 0⟩ := by
  unfold Birthday.str_to_datetime
  rw [heq, splitOnDot_strict d1 d2 m1 m2 y1 y2 y3 y4 h1 h2 h3 h4 h5 h6 h7 h8]
  simp only [hd, hm, hy]
  rw [if_pos hok]

/-- Claim C7's counterexample: `1.1.2024` deviates from the `DD.MM.YYYY`
format (single-digit day and month), yet parsing succeeds — strptime's
compiled pattern accepts unpadded day and month fields — refuting "for
every string not in that format, parsing fails". -/
theorem str_to_datetime_accepts_nonstrict :
    Birthday.str_to_datetime "1.1.2024" = .ok ⟨2024, 1, 1, 0⟩ ∧
    strictDMY "1.1.2024" = none := by decide

/-- Claim C7 (amended): for every strict `DD.MM.YYYY` string denoting a
valid calendar date with year at least 1000, parsing succeeds and
formatting the parsed date back as `DD.MM.YYYY` reproduces the input
exactly.  The failure half of the original claim is dropped: parsing also
accepts strings outside the format, such as unpadded day or month fields
(and strftime `%Y` does not zero-pad years below 1000, so the year
restriction is needed for the exact round trip). -/
theorem birthday_roundtrip (s : String) (d m y : Nat)
    (hs : strictDMY s = some (d, m, y))
    (hd1 : 1 ≤ d) (hdm : d ≤ daysInMonth y m) (hm1 : 1 ≤ m) (hm12 : m ≤ 12)
    (hy : 1000 ≤ y) :
    Birthday.str_to_datetime s = .ok ⟨y, m, d, 0⟩ ∧
    (PyDateTime.mk y m d 0).strftimeDMY = s := by
  obtain ⟨d1, d2, m1, m2, y1, y2, y3, y4, heq, h1, h2, h3, h4, h5, h6, h7, h8, hdv, hmv, hyv⟩ :=
    strictDMY_inv s d m y hs
  subst hdv; subst hmv; subst hyv
  have h31 : 10 * (d1.toNat - 48) + (d2.toNat - 48) ≤ 31 :=
    le_trans hdm (daysInMonth_le _ _)
  constructor
  · exact str_to_datetime_eval s d1 d2 m1 m2 y1 y2 y3 y4 _ _ _ heq
      (dayField_two_digits d1 d2 h1 h2 hd1 h31)
      (monthField_two_digits m1 m2 h3 h4 hm1 hm12)
      (yearField_digits y1 y2 y3 y4 h5 h6 h7 h8)
      (isAsciiDigit_ne_dot _ h1) (isAsciiDigit_ne_dot _ h2) (isAsciiDigit_ne_dot _ h3)
      (isAsciiDigit_ne_dot _ h4) (isAsciiDigit_ne_dot _ h5) (isAsciiDigit_ne_dot _ h6)
      (isAsciiDigit_ne_dot _ h7) (isAsciiDigit_ne_dot _ h8)
      ⟨by omega, hdm⟩
  · unfold PyDateTime.strftimeDMY
    dsimp only
    rw [pad2_digits d1 d2 h1 h2, pad2_digits m1 m2 h3 h4,
        yearChars_digits y1 y2 y3 y4 h5 h6 h7 h8 hy]
    rw [show ([d1, d2] ++ ('.' :: [m1, m2]) ++ ('.' :: [y1, y2, y3, y4]))
          = [d1, d2, '.', m1, m2, '.', y1, y2, y3, y4] by simp]
    rw [← heq]

/-- Claim C7's witness: the amended round trip at `17.06.2000`. -/
theorem birthday_roundtrip_witness :
    Birthday.str_to_datetime "17.06.2000" = .ok ⟨2000, 6, 17, 0⟩ ∧
    (PyDateTime.mk 2000 6 17 0).strftimeDMY = "17.06.2000" :=
  birthday_roundtrip "17.06.2000" 17 6 2000 (by decide) (by decide) (by decide) (by decide)
    (by decide) (by decide)

end Task1
